import Mathlib

/-!
Shallow embedding of the Huntly job-lifecycle core
(`proposal_pipeline.py`, `storage.py`, `telegram_bot.py`, plus the
collaborator call shapes of `huntly/ai/proposal_generator.py` and
`huntly/workana/sender.py`), with theorems settling the spec claims.

Conventions of the embedding:
* Python `str` is Lean `String`; byte strings are `List Nat` (each < 256).
* The sqlite table `jobs` (keyed by primary key `job_id`) is a `List Job`;
  `INSERT OR REPLACE` removes the row with the same key and prepends the
  fresh row; `UPDATE ... WHERE job_id=?` maps over all rows with that key.
* External collaborators (the OpenAI draft call, the Playwright submission,
  the Telegram channel) are modelled by outcome oracles passed as arguments:
  `Option`/`Except` values where `none`/`.error` stands for a raised
  exception and `some`/`.ok` for a normal return.
* A Python function that may let an exception escape returns its store plus
  an `Outcome` flag (or an `Except`); a `try/except` in the source appears
  as a `match` on such a value.
-/

set_option maxRecDepth 10000

namespace Huntly

/-- The whitespace characters stripped by Python `str.strip()`. -/
def pyWhitespace (c : Char) : Bool :=
  c = ' ' || c = '\t' || c = '\n' || c = '\r' || c = Char.ofNat 11 || c = Char.ofNat 12

/-- Python `s.strip()`: drop leading and trailing whitespace. -/
def pyStrip (s : String) : String :=
  String.mk (((s.data.dropWhile pyWhitespace).reverse.dropWhile pyWhitespace).reverse)

/-- Python `s.split("?")[0]`: the prefix of `s` before its first `'?'`
(the whole string when there is none). -/
def split_query (s : String) : String :=
  String.mk (s.data.takeWhile (fun c => c ≠ '?'))

/-- Python `s.startswith(t)`. -/
def py_startswith (s t : String) : Bool :=
  t.data.isPrefixOf s.data

/-- Python `s.split(sep, 1)` followed by unpacking into two variables:
`none` when `sep` does not occur (the unpacking raises `ValueError`). -/
def py_split1_go (sep : Char) (acc : List Char) : List Char → Option (String × String)
  | [] => none
  | c :: rest =>
    if c = sep then some (String.mk acc.reverse, String.mk rest)
    else py_split1_go sep (c :: acc) rest

def py_split1 (sep : Char) (s : String) : Option (String × String) :=
  py_split1_go sep [] s.data

/-! ### SHA-1 (`hashlib.sha1`), used by `make_job_id` -/

/-- Truncation to a 32-bit word. -/
def w32 (n : Nat) : Nat := n % 4294967296

/-- 32-bit left rotation (input assumed < 2^32). -/
def rotl (n b : Nat) : Nat := w32 (n <<< b) ||| (n >>> (32 - b))

/-- UTF-8 encoding of one character (Python `str.encode("utf-8")`). -/
def utf8Bytes (c : Char) : List Nat :=
  let n := c.toNat
  if n < 128 then [n]
  else if n < 2048 then [192 ||| (n >>> 6), 128 ||| (n &&& 63)]
  else if n < 65536 then
    [224 ||| (n >>> 12), 128 ||| ((n >>> 6) &&& 63), 128 ||| (n &&& 63)]
  else
    [240 ||| (n >>> 18), 128 ||| ((n >>> 12) &&& 63),
     128 ||| ((n >>> 6) &&& 63), 128 ||| (n &&& 63)]

def encodeUtf8 (s : String) : List Nat :=
  (s.data.map utf8Bytes).flatten

/-- `k` big-endian bytes of `n`. -/
def beBytes : Nat → Nat → List Nat
  | 0, _ => []
  | k + 1, n => beBytes k (n / 256) ++ [n % 256]

/-- SHA-1 message padding: `0x80`, zeros to 56 mod 64, 8-byte bit length. -/
def sha1Pad (msg : List Nat) : List Nat :=
  let len := msg.length
  msg ++ [128] ++ List.replicate ((119 - len % 64) % 64) 0 ++ beBytes 8 (8 * len)

/-- Split a byte list into 64-byte chunks (structural recursion on a fuel
bound; each step consumes at least one byte, so `l.length` fuel suffices). -/
def toChunksF : Nat → List Nat → List (List Nat)
  | 0, _ => []
  | _ + 1, [] => []
  | fuel + 1, b :: rest => ((b :: rest).take 64) :: toChunksF fuel ((b :: rest).drop 64)

def toChunks (l : List Nat) : List (List Nat) :=
  toChunksF l.length l

/-- Big-endian 32-bit words from bytes. -/
def bytesToWords : List Nat → List Nat
  | b0 :: b1 :: b2 :: b3 :: rest =>
    (b0 * 16777216 + b1 * 65536 + b2 * 256 + b3) :: bytesToWords rest
  | _ => []

/-- Extend the 16 schedule words by `k` more words. -/
def sha1Extend (w : List Nat) : Nat → List Nat
  | 0 => w
  | k + 1 =>
    let w' := sha1Extend w k
    let i := w'.length
    w' ++ [rotl ((((w'.getD (i - 3) 0) ^^^ (w'.getD (i - 8) 0)) ^^^
      (w'.getD (i - 14) 0)) ^^^ (w'.getD (i - 16) 0)) 1]

def sha1F (i b c d : Nat) : Nat :=
  if i < 20 then (b &&& c) ||| ((b ^^^ 4294967295) &&& d)
  else if i < 40 then (b ^^^ c) ^^^ d
  else if i < 60 then ((b &&& c) ||| (b &&& d)) ||| (c &&& d)
  else (b ^^^ c) ^^^ d

def sha1K (i : Nat) : Nat :=
  if i < 20 then 1518500249
  else if i < 40 then 1859775393
  else if i < 60 then 2400959708
  else 3395469782

def sha1Rounds : List (Nat × Nat) → Nat × Nat × Nat × Nat × Nat → Nat × Nat × Nat × Nat × Nat
  | [], st => st
  | (i, wi) :: rest, (a, b, c, d, e) =>
    sha1Rounds rest (w32 (rotl a 5 + sha1F i b c d + e + sha1K i + wi), a, rotl b 30, c, d)

def sha1Chunk (h : Nat × Nat × Nat × Nat × Nat) (chunk : List Nat) :
    Nat × Nat × Nat × Nat × Nat :=
  let (h0, h1, h2, h3, h4) := h
  let ws := sha1Extend (bytesToWords chunk) 64
  let (a, b, c, d, e) := sha1Rounds ws.enum (h0, h1, h2, h3, h4)
  (w32 (h0 + a), w32 (h1 + b), w32 (h2 + c), w32 (h3 + d), w32 (h4 + e))

/-- The 20-byte SHA-1 digest of a byte string. -/
def sha1Bytes (msg : List Nat) : List Nat :=
  let (h0, h1, h2, h3, h4) :=
    (toChunks (sha1Pad msg)).foldl sha1Chunk
      (1732584193, 4023233417, 2562383102, 271733878, 3285377520)
  beBytes 4 h0 ++ beBytes 4 h1 ++ beBytes 4 h2 ++ beBytes 4 h3 ++ beBytes 4 h4

def hexDigit (n : Nat) : Char :=
  if n < 10 then Char.ofNat (48 + n) else Char.ofNat (87 + n)

/-- Lowercase hex characters of a byte list (`hexdigest()`). -/
def hexChars (bs : List Nat) : List Char :=
  bs.foldr (fun b acc => hexDigit (b / 16 % 16) :: hexDigit (b % 16) :: acc) []

/-- `make_job_id` (proposal_pipeline.py):
`hashlib.sha1(url.encode("utf-8")).hexdigest()[:12]`. -/
def make_job_id (url : String) : String :=
  String.mk ((hexChars (sha1Bytes (encodeUtf8 url))).take 12)

/-- The id derivation performed by `handle_new_job` on the (already
whitespace-stripped) url: drop the query string, then hash. -/
def derive_id (url : String) : String :=
  make_job_id (split_query url)

/-! ### Job store (`storage.py`)

The sqlite table `jobs` with primary key `job_id` is a `List Job`. -/

structure Job where
  job_id : String
  url : String
  title : String
  description : String
  budget : String
  date : String
  proposal : String
  status : String
  created_at : Nat
deriving DecidableEq

abbrev Store : Type := List Job

/-- `upsert_job` (storage.py): `INSERT OR REPLACE INTO jobs ... VALUES (...)`.
sqlite deletes any row with the same primary key and inserts the new row,
so every field — including `proposal`, `status` and `created_at` — is
overwritten. `now` stands for `datetime.utcnow().isoformat()`. -/
def upsert_job (s : Store) (job_id url title description budget date proposal status : String)
    (now : Nat) : Store :=
  ⟨job_id, url, title, description, budget, date, proposal, status, now⟩ ::
    List.filter (fun j => j.job_id ≠ job_id) s

/-- `get_job` (storage.py): `SELECT ... WHERE job_id=?` (first row or none). -/
def get_job (s : Store) (job_id : String) : Option Job :=
  List.find? (fun j => j.job_id = job_id) s

/-- `set_status` (storage.py): `UPDATE jobs SET status=? WHERE job_id=?`. -/
def set_status (s : Store) (job_id status : String) : Store :=
  List.map (fun j => if j.job_id = job_id then { j with status := status } else j) s

/-- `set_proposal` (storage.py):
`UPDATE jobs SET proposal=?, status=? WHERE job_id=?`. -/
def set_proposal (s : Store) (job_id proposal status : String) : Store :=
  List.map
    (fun j => if j.job_id = job_id then { j with proposal := proposal, status := status } else j) s

/-! ### Ingestion (`proposal_pipeline.py`) -/

/-- A raw job record from the scraper. Missing dict keys read through
`job.get(key, "")` / `job.get(key) or ""` become `""`. -/
structure RawJob where
  url : String
  title : String
  short_description : String
  budget : String
  date : String
deriving DecidableEq

/-- `handle_new_job` (proposal_pipeline.py). Parameters standing for the
environment: `enabled` is `telegram_enabled()` (the `NOTIFY_TELEGRAM`
flag), `sh` is `strip_html` (whose body delegates to the external
BeautifulSoup library, so it is kept abstract), `now` the clock. The
returned list holds the `(job, job_id)` pairs passed to
`_queue.put_nowait` — the enqueued notifications. -/
def handle_new_job (enabled : Bool) (sh : String → String) (now : Nat)
    (s : Store) (job : RawJob) : Store × List (RawJob × String) :=
  let url := pyStrip job.url
  if url = "" ∨ ¬ py_startswith url "http" then (s, [])
  else
    let url := split_query url
    let job_id := make_job_id url
    let s :=
      upsert_job s job_id url (sh job.title) (sh job.short_description)
        (sh job.budget) (sh job.date) "" "pending_interest" now
    if enabled then (s, [(job, job_id)]) else (s, [])

/-! ### Notification dispatch queue (`proposal_pipeline.py`)

`_send_interest` retries `bot.send_message` up to 3 times with
`await asyncio.sleep(attempt)` between failures; `_sender_worker` is the
single task consuming `_queue` one entry at a time. The Telegram channel
is an oracle `att : Nat → Except Unit Unit` mapping the attempt number to
its outcome (`.error` = the send raised). -/

structure SendResult where
  attempts : Nat
  sleeps : List Nat
  delivered : Bool
deriving DecidableEq

/-- The loop body of `_send_interest` over the remaining attempt numbers
(`range(1, 4)` = `[1, 2, 3]`). The `match` on `att attempt` is the
`try/except` around `bot.send_message`; an `.error` result of the whole
function would be an exception escaping `_send_interest` — no branch
produces one. -/
def send_interest_go (att : Nat → Except Unit Unit) (sleeps : List Nat) :
    List Nat → Except Unit SendResult
  | [] => .ok ⟨0, sleeps, false⟩
  | attempt :: rest =>
    match att attempt with
    | .ok _ => .ok ⟨attempt, sleeps, true⟩
    | .error _ =>
      if attempt = 3 then .ok ⟨attempt, sleeps, false⟩
      else send_interest_go att (sleeps ++ [attempt]) rest

/-- `_send_interest`: `for attempt in range(1, 4): ...`. -/
def send_interest (att : Nat → Except Unit Unit) : Except Unit SendResult :=
  send_interest_go att [] [1, 2, 3]

/-- `_sender_worker` processing a queue prefix: one entry at a time, each
taken to its final outcome before the next is started. `att i a` is the
channel outcome for attempt `a` of the entry at position `i`; the worker's
own `try/except` appears as the `match` absorbing a hypothetical `.error`.
The result is the delivery-attempt trace: one `(entry index, attempt
number)` pair per `bot.send_message` call, in execution order. -/
def sender_worker_go (att : Nat → Nat → Except Unit Unit) (i : Nat) :
    List (RawJob × String) → List (Nat × Nat)
  | [] => []
  | _ :: rest =>
    let r : SendResult :=
      match send_interest (att i) with
      | .ok r => r
      | .error _ => ⟨0, [], false⟩
    (List.range' 1 r.attempts).map (fun a => (i, a)) ++ sender_worker_go att (i + 1) rest

def sender_worker_run (att : Nat → Nat → Except Unit Unit)
    (queue : List (RawJob × String)) : List (Nat × Nat) :=
  sender_worker_go att 0 queue

/-! ### Review state machine (`telegram_bot.py`) -/

structure Button where
  text : String
  callback_data : String
deriving DecidableEq

def keyboard_send (job_id : String) : List (List Button) :=
  [[⟨"✅ Enviar propuesta", "OK|" ++ job_id⟩, ⟨"❌ Ignorar", "NO|" ++ job_id⟩]]

def keyboard_interest (job_id : String) : List (List Button) :=
  [[⟨"⭐ Me interesa", "INT|" ++ job_id⟩, ⟨"❌ Ignorar", "NO|" ++ job_id⟩]]

/-- Python `html.escape(s)` (with its default `quote=True`). -/
def escapeChar (c : Char) : List Char :=
  if c = '&' then "&amp;".data
  else if c = '<' then "&lt;".data
  else if c = '>' then "&gt;".data
  else if c = Char.ofNat 34 then "&quot;".data
  else if c = Char.ofNat 39 then "&#x27;".data
  else [c]

def html_escape (s : String) : String :=
  String.mk (s.data.foldr (fun c acc => escapeChar c ++ acc) [])

/-- `build_message_with_proposal` (telegram_bot.py). -/
def build_message_with_proposal (job : Job) : String :=
  let title := html_escape job.title
  let budget := html_escape job.budget
  let date := html_escape job.date
  let url := job.url
  let desc := html_escape job.description
  let proposal := String.mk (html_escape job.proposal |>.data.take 3000)
  "🆕 <b>¡Nuevo Trabajo Encontrado! 🚀</b>\n\n" ++
  "💼 <b>Título:</b> " ++ title ++ "\n" ++
  "💰 <b>Presupuesto:</b> " ++ budget ++ "\n" ++
  "📅 <b>Fecha:</b> " ++ date ++ "\n" ++
  "🔗 <b>Link:</b> <a href=\"" ++ html_escape url ++ "\">" ++ html_escape url ++ "</a>\n\n" ++
  "📝 <b>Descripción:</b>\n" ++ desc ++ "\n\n" ++
  "✍️ <b>Propuesta:</b>\n<pre><code>" ++ proposal ++ "</code></pre>"

/-- Operator-channel side effects and collaborator invocations performed by
`on_callback`, in execution order. -/
inductive Event where
  | reply (text : String)
  | editMarkup (kb : Option (List (List Button)))
  | editText (text : String) (kb : List (List Button))
  | genCall (title description budget date url : String)
  | sendCall (url proposal : String)
deriving DecidableEq

inductive Outcome where
  | completed
  | raised
deriving DecidableEq

structure CbResult where
  store : Store
  events : List Event
  outcome : Outcome

/-- `on_callback` (telegram_bot.py). `data` is `query.data`. The external
collaborators are outcome oracles: `gen` is the `generar_propuesta` call
(`none` = it raised, `some t` = it returned `t`; a `None` return reads as
`""` through `proposal or ""`), `send` is `send_proposal_to_workana`
(`none` = it raised, `some ok` = it returned `ok`). `outcome = .raised`
marks an exception escaping the handler; `store` and `events` are the
state and side effects at that point. -/
def on_callback (s : Store) (data : String) (gen : Option String)
    (send : Option Bool) : CbResult :=
  match py_split1 '|' data with
  | none => ⟨s, [], .raised⟩
  | some (action, job_id) =>
    match get_job s job_id with
    | none => ⟨s, [.reply "❌ No encontré el trabajo en la DB."], .completed⟩
    | some job =>
      if action = "NO" then
        ⟨set_status s job_id "ignored",
         [.editMarkup none, .reply "🗑️ Proyecto ignorado."], .completed⟩
      else if action = "INT" then
        let job := (get_job s job_id).getD job
        if pyStrip job.proposal ≠ "" then
          ⟨s, [.editText (build_message_with_proposal job) (keyboard_send job_id)], .completed⟩
        else
          let s1 := set_status s job_id "generating"
          let ev0 : List Event :=
            [.reply "🧠 Generando propuesta...",
             .genCall job.title job.description job.budget job.date job.url]
          match gen with
          | none => ⟨s1, ev0, .raised⟩
          | some t =>
            let proposal := pyStrip t
            let s2 := set_proposal s1 job_id proposal "pending_send"
            let job := { (get_job s2 job_id).getD job with proposal := proposal }
            ⟨s2, ev0 ++ [.editText (build_message_with_proposal job) (keyboard_send job_id)],
             .completed⟩
      else if action = "OK" then
        let job := (get_job s job_id).getD job
        let proposal := pyStrip job.proposal
        if proposal = "" then
          ⟨s, [.reply "⚠️ No hay propuesta generada. Tocá primero ⭐ Me interesa.",
               .editMarkup (some (keyboard_interest job_id))], .completed⟩
        else
          let ev0 : List Event :=
            [.reply "🚀 Abriendo Workana (modo visible) y enviando la propuesta...",
             .sendCall job.url proposal]
          match send with
          | none => ⟨s, ev0, .raised⟩
          | some ok =>
            if ok then
              ⟨set_status s job_id "sent",
               ev0 ++ [.editMarkup none, .reply "✅ Propuesta enviada correctamente en Workana."],
               .completed⟩
            else
              ⟨set_status s job_id "error",
               ev0 ++ [.reply "❌ Error al enviar la propuesta."], .completed⟩
      else ⟨s, [], .completed⟩

/-- The stores reachable from an empty database through the program's
operations: ingestion (`handle_new_job`, over any scraper record, clock,
HTML sanitizer and `NOTIFY_TELEGRAM` setting) and operator callbacks
(`on_callback`, over any callback data and collaborator outcomes). -/
inductive Reachable : Store → Prop where
  | empty : Reachable []
  | ingest (enabled : Bool) (sh : String → String) (now : Nat) (job : RawJob) {s : Store} :
      Reachable s → Reachable (handle_new_job enabled sh now s job).1
  | callback (data : String) (gen : Option String) (send : Option Bool) {s : Store} :
      Reachable s → Reachable (on_callback s data gen send).store

/-- Recognizer for generation-collaborator invocations. -/
def isGenCall : Event → Bool
  | .genCall _ _ _ _ _ => true
  | _ => false

/-- Recognizer for submission-collaborator invocations. -/
def isSendCall : Event → Bool
  | .sendCall _ _ => true
  | _ => false

/-- The number of delivery attempts the resolution of a queue entry takes
under per-attempt channel oracle `att k`: its final attempt number
(success or exhaustion). -/
def deliveryAttempts (att : Nat → Nat → Except Unit Unit) (k : Nat) : Nat :=
  match send_interest (att k) with
  | .ok r => r.attempts
  | .error _ => 0

/-! ### Concrete scenario fixtures -/

/-- A scraper record whose url carries a query string. -/
def rawA : RawJob := ⟨"https://x.test/job/42?ref=abc", "T", "D", "B", "F"⟩

/-- `sha1("https://x.test/job/42").hexdigest()[:12]`. -/
def jidA : String := "3a55e8f8da82"

/-- Store after the first ingestion of `rawA` (notifications enabled,
HTML sanitizer the identity, clock 0). -/
def storeA : Store := (handle_new_job true id 0 [] rawA).1

/-- The record `storeA` holds. -/
def jrecA : Job :=
  ⟨make_job_id "https://x.test/job/42", "https://x.test/job/42",
   "T", "D", "B", "F", "", "pending_interest", 0⟩

/-- Store after the operator's interest action on `storeA`, the draft
collaborator returning `"draft"`. -/
def storeB : Store := (on_callback storeA "INT|3a55e8f8da82" (some "draft") none).store

/-- The record `storeB` holds. -/
def jrecB : Job :=
  ⟨make_job_id "https://x.test/job/42", "https://x.test/job/42",
   "T", "D", "B", "F", "draft", "pending_send", 0⟩

/-- A scraper record with a trailing blank in its url and no query string. -/
def rawC : RawJob := ⟨"http://a ", "T", "D", "B", "F"⟩

/-- A scraper record whose url lacks an http scheme. -/
def rawF : RawJob := ⟨"ftp://x.test/1", "T", "D", "B", "F"⟩

/-- A channel oracle: the first entry fails on attempts 1 and 2 and
succeeds on attempt 3; later entries succeed immediately. -/
def attW : Nat → Nat → Except Unit Unit :=
  fun i a => if i = 0 ∧ a ≤ 2 then .error () else .ok ()

def queueW : List (RawJob × String) := [(rawA, jidA), (rawA, jidA), (rawA, jidA)]

/-! ### Helper lemmas -/

theorem pyStrip_data (s : String) :
    (pyStrip s).data =
      List.rdropWhile pyWhitespace (s.data.dropWhile pyWhitespace) := rfl

theorem pyStrip_idem (s : String) : pyStrip (pyStrip s) = pyStrip s := by
  have hdata : ∀ l : List Char,
      List.rdropWhile pyWhitespace
        ((List.rdropWhile pyWhitespace (l.dropWhile pyWhitespace)).dropWhile pyWhitespace) =
      List.rdropWhile pyWhitespace (l.dropWhile pyWhitespace) := by
    intro l
    set m := l.dropWhile pyWhitespace with hm
    have hdw : (List.rdropWhile pyWhitespace m).dropWhile pyWhitespace =
        List.rdropWhile pyWhitespace m := by
      rw [List.dropWhile_eq_self_iff]
      intro hl hp
      have hpre := List.rdropWhile_prefix pyWhitespace m
      have hget : (List.rdropWhile pyWhitespace m).get ⟨0, hl⟩ = m.get ⟨0,
          lt_of_lt_of_le hl hpre.length_le⟩ := by
        simp only [List.get_eq_getElem]
        exact hpre.getElem hl
      rw [hget] at hp
      exact List.dropWhile_get_zero_not pyWhitespace l
        (lt_of_lt_of_le hl hpre.length_le) hp
    rw [hdw, List.rdropWhile_idempotent]
  show String.mk _ = String.mk _
  rw [pyStrip_data]
  exact congrArg String.mk (hdata s.data)

theorem pyStrip_eq_empty_of (s : String) (h : s = "") : pyStrip s = "" := by
  subst h; rfl

theorem get_job_cons (j : Job) (s : Store) (i : String) :
    get_job (j :: s) i = if j.job_id = i then some j else get_job s i := by
  by_cases h : j.job_id = i <;> simp [get_job, List.find?_cons, h]

theorem get_job_set_status (s : Store) (i st : String) :
    get_job (set_status s i st) i =
      (get_job s i).map (fun j => { j with status := st }) := by
  induction s with
  | nil => rfl
  | cons a s ih =>
    by_cases h : a.job_id = i
    · simp [set_status, get_job, List.find?_cons, h]
    · simpa [set_status, get_job, List.find?_cons, h] using ih

theorem get_job_set_proposal (s : Store) (i p st : String) :
    get_job (set_proposal s i p st) i =
      (get_job s i).map (fun j => { j with proposal := p, status := st }) := by
  induction s with
  | nil => rfl
  | cons a s ih =>
    by_cases h : a.job_id = i
    · simp [set_proposal, get_job, List.find?_cons, h]
    · simpa [set_proposal, get_job, List.find?_cons, h] using ih

theorem set_proposal_set_status (s : Store) (i st0 p st : String) :
    set_proposal (set_status s i st0) i p st = set_proposal s i p st := by
  simp only [set_proposal, set_status, List.map_map]
  apply List.map_congr_left
  intro j _
  by_cases h : j.job_id = i <;> simp [Function.comp, h]

theorem get_job_upsert (s : Store) (i url t d b dt p st : String) (now : Nat) :
    get_job (upsert_job s i url t d b dt p st now) i =
      some ⟨i, url, t, d, b, dt, p, st, now⟩ := by
  simp [get_job, upsert_job, List.find?_cons]

theorem upsert_unique (s : Store) (i url t d b dt p st : String) (now : Nat) :
    List.countP (fun j => j.job_id = i) (upsert_job s i url t d b dt p st now) = 1 := by
  simp only [upsert_job, List.countP_cons]
  have h0 : List.countP (fun j => decide (j.job_id = i))
      (List.filter (fun j => j.job_id ≠ i) s) = 0 := by
    rw [List.countP_eq_zero]
    intro a ha
    have := List.of_mem_filter ha
    simpa using this
  simp [h0]

theorem get_job_eq_some {s : Store} {i : String} {job : Job}
    (h : get_job s i = some job) : job ∈ s ∧ job.job_id = i := by
  refine ⟨List.mem_of_find?_eq_some h, ?_⟩
  have := List.find?_some h
  simpa using this

/-! ### The store invariant maintained by the program -/

/-- Well-formedness of a single stored record: the proposal is stored in
whitespace-stripped form (ingestion writes `""` and the interest handler
writes `proposal.strip()`); records still awaiting a draft
(`pending_interest`, `generating`) have an empty proposal; records that
passed the submission guard (`sent`, `error`) have a non-empty one. -/
def RecordOK (j : Job) : Prop :=
  j.proposal = pyStrip j.proposal ∧
  ((j.status = "pending_interest" ∨ j.status = "generating") → j.proposal = "") ∧
  ((j.status = "sent" ∨ j.status = "error") → j.proposal ≠ "")

/-- Store invariant: primary keys are distinct (sqlite primary key) and
every record is well-formed. -/
def StoreWF (s : Store) : Prop :=
  List.Pairwise (fun a b => a.job_id ≠ b.job_id) s ∧ ∀ j ∈ s, RecordOK j

theorem storeWF_upsert {s : Store} (h : StoreWF s) {p st : String}
    (i url t d b dt : String) (now : Nat)
    (rec : RecordOK ⟨i, url, t, d, b, dt, p, st, now⟩) :
    StoreWF (upsert_job s i url t d b dt p st now) := by
  constructor
  · rw [upsert_job, List.pairwise_cons]
    refine ⟨?_, h.1.sublist (List.filter_sublist s)⟩
    intro a ha
    have := List.of_mem_filter ha
    simp only [decide_not, Bool.not_eq_true', decide_eq_false_iff_not] at this
    exact fun hc => this hc.symm
  · intro j hj
    rw [upsert_job, List.mem_cons] at hj
    rcases hj with rfl | hj
    · exact rec
    · exact h.2 j (List.mem_of_mem_filter hj)

theorem storeWF_mapIf {s : Store} (h : StoreWF s) (i : String) (f : Job → Job)
    (hid : ∀ j, (f j).job_id = j.job_id)
    (hrec : ∀ j ∈ s, j.job_id = i → RecordOK (f j)) :
    StoreWF (List.map (fun j => if j.job_id = i then f j else j) s) := by
  have hg : ∀ j : Job, (if j.job_id = i then f j else j).job_id = j.job_id := by
    intro j
    by_cases hj : j.job_id = i <;> simp [hj, hid]
  constructor
  · rw [List.pairwise_map]
    exact h.1.imp (fun {a b} hab => by simpa [hg] using hab)
  · intro j' hj'
    rcases List.mem_map.mp hj' with ⟨j, hj, rfl⟩
    by_cases hji : j.job_id = i
    · simpa [hji] using hrec j hj hji
    · simpa [hji] using h.2 j hj

theorem get_job_unique {s : Store}
    (hp : List.Pairwise (fun a b => a.job_id ≠ b.job_id) s)
    {i : String} {job j : Job} (hf : get_job s i = some job) (hj : j ∈ s)
    (hid : j.job_id = i) : j = job := by
  induction s with
  | nil => cases hj
  | cons a s ih =>
    rw [get_job_cons] at hf
    rcases List.pairwise_cons.mp hp with ⟨ha, hp2⟩
    by_cases hai : a.job_id = i
    · rw [if_pos hai] at hf
      injection hf with hf
      rcases List.mem_cons.mp hj with rfl | hmem
      · exact hf
      · exact absurd (hai.trans hid.symm) (ha j hmem)
    · rw [if_neg hai] at hf
      rcases List.mem_cons.mp hj with rfl | hmem
      · exact absurd hid hai
      · exact ih hp2 hf hmem

theorem recordOK_initial (i url t d b dt : String) (now : Nat) :
    RecordOK ⟨i, url, t, d, b, dt, "", "pending_interest", now⟩ := by
  refine ⟨rfl, fun _ => rfl, fun hc => ?_⟩
  rcases hc with hc | hc <;> simp at hc

/-- Every store reachable from the empty database through the program's
operations satisfies the invariant. -/
theorem reachable_wf {s : Store} (h : Reachable s) : StoreWF s := by
  induction h with
  | empty => exact ⟨List.Pairwise.nil, by simp⟩
  | ingest enabled sh now raw hr ih =>
    simp only [handle_new_job]
    split
    · exact ih
    · split
      · exact storeWF_upsert ih _ _ _ _ _ _ _ (recordOK_initial _ _ _ _ _ _ _)
      · exact storeWF_upsert ih _ _ _ _ _ _ _ (recordOK_initial _ _ _ _ _ _ _)
  | callback data gen send hr ih =>
    simp only [on_callback]
    split
    · exact ih
    · rename_i parts action i hsplit
      split
      · exact ih
      · rename_i job hget
        by_cases hNO : action = "NO"
        · simp only [if_pos hNO]
          refine storeWF_mapIf ih i _ (fun j => rfl) ?_
          intro j hj hji
          obtain ⟨hstrip, _, _⟩ := ih.2 j hj
          refine ⟨hstrip, fun hc => ?_, fun hc => ?_⟩
          · rcases hc with hc | hc <;> simp at hc
          · rcases hc with hc | hc <;> simp at hc
        · simp only [if_neg hNO]
          by_cases hINT : action = "INT"
          · simp only [if_pos hINT, hget, Option.getD_some]
            split
            · exact ih
            · rename_i hpe
              rw [not_not] at hpe
              have hjob := get_job_eq_some hget
              have hjobOK := ih.2 job hjob.1
              have hjp : job.proposal = "" := by
                rw [hjobOK.1, hpe]
              split
              · change StoreWF (set_status _ i "generating")
                refine storeWF_mapIf ih i _ (fun j => rfl) ?_
                intro j hj hji
                have hjeq : j = job := get_job_unique ih.1 hget hj hji
                subst hjeq
                refine ⟨by rw [hjp]; rfl, fun _ => hjp, fun hc => ?_⟩
                rcases hc with hc | hc <;> simp at hc
              · rename_i t
                change StoreWF (set_proposal (set_status _ i "generating") i (pyStrip t)
                  "pending_send")
                rw [set_proposal_set_status]
                refine storeWF_mapIf ih i _ (fun j => rfl) ?_
                intro j hj hji
                refine ⟨(pyStrip_idem t).symm, fun hc => ?_, fun hc => ?_⟩
                · rcases hc with hc | hc <;> simp at hc
                · rcases hc with hc | hc <;> simp at hc
          · simp only [if_neg hINT]
            by_cases hOK : action = "OK"
            · simp only [if_pos hOK, hget, Option.getD_some]
              split
              · exact ih
              · rename_i hpe
                have hjob := get_job_eq_some hget
                have hjobOK := ih.2 job hjob.1
                have hjp : job.proposal ≠ "" := by
                  intro hc
                  apply hpe
                  rw [hc]
                  rfl
                split
                · exact ih
                · rename_i ok
                  split
                  · change StoreWF (set_status _ i "sent")
                    refine storeWF_mapIf ih i _ (fun j => rfl) ?_
                    intro j hj hji
                    have hjeq : j = job := get_job_unique ih.1 hget hj hji
                    subst hjeq
                    refine ⟨hjobOK.1, fun hc => ?_, fun _ => hjp⟩
                    rcases hc with hc | hc <;> simp at hc
                  · change StoreWF (set_status _ i "error")
                    refine storeWF_mapIf ih i _ (fun j => rfl) ?_
                    intro j hj hji
                    have hjeq : j = job := get_job_unique ih.1 hget hj hji
                    subst hjeq
                    refine ⟨hjobOK.1, fun hc => ?_, fun _ => hjp⟩
                    rcases hc with hc | hc <;> simp at hc
            · simp only [if_neg hOK]
              exact ih

/-! ### Dispatch-queue lemmas -/

theorem sender_worker_go_mem (att : Nat → Nat → Except Unit Unit)
    (q : List (RawJob × String)) :
    ∀ i p, p ∈ sender_worker_go att i q → i ≤ p.1 := by
  induction q with
  | nil => intro i p hp; simp [sender_worker_go] at hp
  | cons e q ih =>
    intro i p hp
    simp only [sender_worker_go, List.mem_append, List.mem_map] at hp
    rcases hp with ⟨a, _, rfl⟩ | hp
    · exact le_refl i
    · exact Nat.le_of_succ_le (ih (i + 1) p hp)

theorem sender_worker_go_pairwise (att : Nat → Nat → Except Unit Unit)
    (q : List (RawJob × String)) :
    ∀ i, List.Pairwise (fun x y : Nat × Nat => x.1 < y.1 ∨ (x.1 = y.1 ∧ x.2 < y.2))
      (sender_worker_go att i q) := by
  induction q with
  | nil => intro i; simp [sender_worker_go]
  | cons e q ih =>
    intro i
    simp only [sender_worker_go]
    rw [List.pairwise_append]
    refine ⟨?_, ih (i + 1), ?_⟩
    · rw [List.pairwise_map]
      refine (List.pairwise_lt_range' 1 _).imp ?_
      intro a b hab
      exact Or.inr ⟨rfl, hab⟩
    · intro x hx y hy
      rcases List.mem_map.mp hx with ⟨a, _, rfl⟩
      exact Or.inl (lt_of_lt_of_le (Nat.lt_succ_self i)
        (sender_worker_go_mem att q (i + 1) y hy))

theorem deliveryAttempts_eq (att : Nat → Nat → Except Unit Unit) (k : Nat) :
    (match send_interest (att k) with
      | .ok r => r
      | .error _ => (⟨0, [], false⟩ : SendResult)).attempts = deliveryAttempts att k := by
  unfold deliveryAttempts
  cases send_interest (att k) with
  | error e => rfl
  | ok r => rfl

theorem sender_worker_go_filter (att : Nat → Nat → Except Unit Unit)
    (q : List (RawJob × String)) :
    ∀ i k, i ≤ k → k < i + q.length →
      ((sender_worker_go att i q).filter (fun p => p.1 = k)).map Prod.snd =
        List.range' 1 (deliveryAttempts att k) := by
  induction q with
  | nil =>
    intro i k hik hk
    simp at hk
    omega
  | cons e q ih =>
    intro i k hik hk
    simp only [sender_worker_go, List.filter_append, List.map_append]
    by_cases hk0 : i = k
    · subst hk0
      have hrest :
          (sender_worker_go att (i + 1) q).filter (fun p => p.1 = i) = [] := by
        rw [List.filter_eq_nil_iff]
        intro p hp
        have := sender_worker_go_mem att q (i + 1) p hp
        simp only [decide_eq_true_eq]
        omega
      rw [hrest]
      have hblock : ∀ n : Nat,
          (((List.range' 1 n).map (fun a => (i, a))).filter
            (fun p : Nat × Nat => p.1 = i)).map Prod.snd = List.range' 1 n := by
        intro n
        induction (List.range' 1 n) with
        | nil => rfl
        | cons a l ihl => simp [ihl]
      simp only [List.map_nil, List.append_nil]
      rw [deliveryAttempts_eq att i]
      exact hblock _
    · have hblock :
          ((List.range' 1 (match send_interest (att i) with
              | .ok r => r
              | .error _ => ⟨0, [], false⟩).attempts).map (fun a => (i, a))).filter
            (fun p : Nat × Nat => p.1 = k) = [] := by
        rw [List.filter_eq_nil_iff]
        intro p hp
        rcases List.mem_map.mp hp with ⟨a, _, rfl⟩
        simp only [decide_eq_true_eq]
        exact hk0
      rw [hblock]
      simp only [List.nil_append, List.map_nil]
      refine ih (i + 1) k (by omega) (by simp at hk ⊢; omega)

theorem beBytes_length (k : Nat) : ∀ n, (beBytes k n).length = k := by
  induction k with
  | zero => intro n; rfl
  | succ k ih => intro n; simp [beBytes, ih]

theorem hexChars_length (bs : List Nat) : (hexChars bs).length = 2 * bs.length := by
  induction bs with
  | nil => rfl
  | cons b bs ih =>
    simp only [hexChars, List.foldr_cons, List.length_cons] at ih ⊢
    omega

theorem sha1Bytes_length (msg : List Nat) : (sha1Bytes msg).length = 20 := by
  unfold sha1Bytes
  set t := (toChunks (sha1Pad msg)).foldl sha1Chunk
    (1732584193, 4023233417, 2562383102, 271733878, 3285377520) with ht
  obtain ⟨h0, h1, h2, h3, h4⟩ := t
  simp [beBytes_length]

/-! ### Claim theorems -/

/-- **C5**: the dispatch-queue consumer processes entries strictly one at a
time in FIFO enqueue order. In the delivery-attempt trace of
`_sender_worker` (one `(entry index, attempt number)` pair per channel
call, in execution order): every attempt of an earlier-enqueued entry
precedes every attempt of a later-enqueued one, attempts of one entry occur
in increasing order (so no two deliveries overlap), and the trace
restricted to entry `k` is exactly the attempts `1..deliveryAttempts` of
`k`'s complete resolution — a later entry is attempted only after the
earlier entry's delivery is resolved (success or exhausted retries). -/
theorem dispatch_fifo_serialized (att : Nat → Nat → Except Unit Unit)
    (queue : List (RawJob × String)) :
    List.Pairwise (fun x y : Nat × Nat => x.1 < y.1 ∨ (x.1 = y.1 ∧ x.2 < y.2))
      (sender_worker_run att queue) ∧
    ∀ k, k < queue.length →
      ((sender_worker_run att queue).filter (fun p => p.1 = k)).map Prod.snd =
        List.range' 1 (deliveryAttempts att k) :=
  ⟨sender_worker_go_pairwise att queue 0,
   fun k hk => sender_worker_go_filter att queue 0 k (Nat.zero_le k) (by omega)⟩

/-- Closed witness for the C5 theorem: three entries, the first failing
twice then succeeding. -/
theorem dispatch_fifo_serialized_witness :
    List.Pairwise (fun x y : Nat × Nat => x.1 < y.1 ∨ (x.1 = y.1 ∧ x.2 < y.2))
      (sender_worker_run attW queueW) ∧
    ((sender_worker_run attW queueW).filter (fun p => p.1 = 0)).map Prod.snd =
      List.range' 1 (deliveryAttempts attW 0) :=
  ⟨(dispatch_fifo_serialized attW queueW).1,
   (dispatch_fifo_serialized attW queueW).2 0 (by decide)⟩

/-- **C6**: per queue entry, delivery is attempted at most 3 times; after
failed attempt `n < 3` the consumer sleeps `n` time units (so the sleep
trace is `[1, 2]` truncated to the failures that occurred); after a third
failure the entry is dropped (attempt count stays 3); and `_send_interest`
returns normally under every channel behaviour — the `try/except` absorbs
every send failure, so no exception can reach the enqueuing ingestion
caller. -/
theorem delivery_retry_policy (att : Nat → Except Unit Unit) :
    ∃ r : SendResult, send_interest att = Except.ok r ∧
      1 ≤ r.attempts ∧ r.attempts ≤ 3 ∧
      r.sleeps = [1, 2].take (r.attempts - 1) ∧
      (r.delivered = false → r.attempts = 3) := by
  cases h1 : att 1 with
  | ok u =>
    refine ⟨⟨1, [], true⟩, ?_, by decide, by decide, by decide, by decide⟩
    simp [send_interest, send_interest_go, h1]
  | error e =>
    cases h2 : att 2 with
    | ok u =>
      refine ⟨⟨2, [1], true⟩, ?_, by decide, by decide, by decide, by decide⟩
      simp [send_interest, send_interest_go, h1, h2]
    | error e2 =>
      cases h3 : att 3 with
      | ok u =>
        refine ⟨⟨3, [1, 2], true⟩, ?_, by decide, by decide, by decide, by decide⟩
        simp [send_interest, send_interest_go, h1, h2, h3]
      | error e3 =>
        refine ⟨⟨3, [1, 2], false⟩, ?_, by decide, by decide, by decide, by decide⟩
        simp [send_interest, send_interest_go, h1, h2, h3]

/-- Closed witness for the C6 theorem: a channel that always fails still
yields a normal (non-raising) result. -/
theorem delivery_retry_policy_witness :
    (send_interest (fun _ => Except.error ())).toOption.isSome = true := by
  obtain ⟨r, hr, _⟩ := delivery_retry_policy (fun _ => Except.error ())
  rw [hr]
  rfl

/-- **C8**: ids are derived from the query-stripped URL: URLs equal after
dropping the query string receive equal ids; the id is the SHA-1 hex
digest of the UTF-8 encoding of the query-stripped URL truncated to 12
(hex) characters, of length exactly 12. -/
theorem derive_id_query_invariant (u1 u2 u : String)
    (h : split_query u1 = split_query u2) :
    derive_id u1 = derive_id u2 ∧
    derive_id u = String.mk ((hexChars (sha1Bytes (encodeUtf8 (split_query u)))).take 12) ∧
    (derive_id u).length = 12 := by
  refine ⟨by rw [derive_id, derive_id, h], rfl, ?_⟩
  show (String.mk _).length = 12
  simp [String.length, List.length_take, hexChars_length, sha1Bytes_length]

/-- Closed witness for the C8 theorem. -/
theorem derive_id_query_invariant_witness :
    derive_id "https://x.test/job/42?ref=abc" = derive_id "https://x.test/job/42?page=2" ∧
    derive_id "http://a" =
      String.mk ((hexChars (sha1Bytes (encodeUtf8 (split_query "http://a")))).take 12) ∧
    (derive_id "http://a").length = 12 :=
  have h := derive_id_query_invariant "https://x.test/job/42?ref=abc"
    "https://x.test/job/42?page=2" "http://a" (by decide)
  ⟨h.1, h.2.1, h.2.2⟩

/-- **C9**: a raw job whose stripped url is empty or does not start with
`"http"` is rejected by `handle_new_job`: the store is returned unchanged
(nothing persisted, every other job untouched) and no notification is
enqueued. A missing `url` key reads as `""` through `job.get("url") or ""`
and is covered by the empty case. -/
theorem reject_non_http (enabled : Bool) (sh : String → String) (now : Nat)
    (s : Store) (raw : RawJob)
    (h : pyStrip raw.url = "" ∨ ¬ py_startswith (pyStrip raw.url) "http") :
    handle_new_job enabled sh now s raw = (s, []) := by
  simp only [handle_new_job]
  rw [if_pos h]

/-- Closed witness for the C9 theorem: an `ftp://` url is rejected and a
previously stored job is untouched. -/
theorem reject_non_http_witness :
    handle_new_job true id 0 [jrecA] rawF = ([jrecA], []) :=
  reject_non_http true id 0 [jrecA] rawF (by decide)

/-- **C1** (amended): ingestion of an already-known URL is *not*
idempotent. `INSERT OR REPLACE` overwrites the row: after a repeated
`handle_new_job` the record is back at `status = "pending_interest"` with
an empty proposal (whatever its fields were before), and — whenever the
notification channel is enabled — every accepted call enqueues one
notification, with no dedup check. Both calls do address one single record
(same id, `countP = 1`), which is the surviving part of the claim. -/
theorem reingest_overwrites (enabled : Bool) (sh : String → String) (now : Nat)
    (s : Store) (raw : RawJob)
    (h1 : ¬ (pyStrip raw.url = "" ∨ ¬ py_startswith (pyStrip raw.url) "http")) :
    get_job (handle_new_job enabled sh now s raw).1 (derive_id (pyStrip raw.url)) =
      some ⟨derive_id (pyStrip raw.url), split_query (pyStrip raw.url), sh raw.title,
        sh raw.short_description, sh raw.budget, sh raw.date, "", "pending_interest", now⟩ ∧
    (handle_new_job enabled sh now s raw).2 =
      (if enabled then [(raw, derive_id (pyStrip raw.url))] else []) ∧
    List.countP (fun j => j.job_id = derive_id (pyStrip raw.url))
      (handle_new_job enabled sh now s raw).1 = 1 := by
  simp only [handle_new_job, if_neg h1]
  cases enabled <;> simp [get_job_upsert, upsert_unique, derive_id]

/-- Closed witness for the (amended) C1 theorem: re-ingesting `rawA` over
the drafted store. -/
theorem reingest_overwrites_witness :
    get_job (handle_new_job true id 5 storeB rawA).1 (derive_id (pyStrip rawA.url)) =
      some ⟨derive_id (pyStrip rawA.url), split_query (pyStrip rawA.url), id rawA.title,
        id rawA.short_description, id rawA.budget, id rawA.date, "", "pending_interest", 5⟩ ∧
    (handle_new_job true id 5 storeB rawA).2 =
      (if true then [(rawA, derive_id (pyStrip rawA.url))] else []) ∧
    List.countP (fun j => j.job_id = derive_id (pyStrip rawA.url))
      (handle_new_job true id 5 storeB rawA).1 = 1 :=
  reingest_overwrites true id 5 storeB rawA (by decide)

/-- **C1** counterexample: ingest `rawA`; an interest action stores a draft
(`pending_send` / `"draft"`); re-ingesting the same raw job resets the
record to `pending_interest` with an empty proposal, and the two
ingestions (channel enabled) enqueue two notifications for the id, not at
most one. -/
theorem reingest_not_idempotent_cex :
    (get_job storeB jidA).map Job.status = some "pending_send" ∧
    (get_job storeB jidA).map Job.proposal = some "draft" ∧
    (get_job (handle_new_job true id 1 storeB rawA).1 jidA).map Job.status =
      some "pending_interest" ∧
    (get_job (handle_new_job true id 1 storeB rawA).1 jidA).map Job.proposal = some "" ∧
    (handle_new_job true id 0 [] rawA).2.length +
      (handle_new_job true id 1 storeB rawA).2.length = 2 := by
  decide

/-- **C2** (amended): in every reachable store, a record still awaiting a
draft (`pending_interest`, or the stranded `generating`) has an empty
proposal, and a record with status `sent` or `error` has a non-empty one.
The claimed equivalence itself fails in both directions: `pending_send`
with an empty proposal is reachable (empty generator output — see the
counterexample), and `ignored`/`error` records keep their non-empty
proposals. -/
theorem reachable_proposal_status {s : Store} {j : Job}
    (hs : Reachable s) (hj : j ∈ s) :
    ((j.status = "pending_interest" ∨ j.status = "generating") → j.proposal = "") ∧
    ((j.status = "sent" ∨ j.status = "error") → j.proposal ≠ "") :=
  ⟨((reachable_wf hs).2 j hj).2.1, ((reachable_wf hs).2 j hj).2.2⟩

/-- Closed witness for the (amended) C2 theorem at the freshly ingested
record. -/
theorem reachable_proposal_status_witness :
    ((jrecA.status = "pending_interest" ∨ jrecA.status = "generating") →
      jrecA.proposal = "") ∧
    ((jrecA.status = "sent" ∨ jrecA.status = "error") → jrecA.proposal ≠ "") :=
  reachable_proposal_status (Reachable.ingest true id 0 rawA Reachable.empty) (by decide)

/-- **C2** counterexample: when the draft collaborator returns empty text,
the interest handler stores it verbatim with `status = "pending_send"` —
a reachable record with `pending_send` and an empty proposal, which the
claim rules out. -/
theorem pending_send_empty_proposal_cex :
    Reachable (on_callback storeA "INT|3a55e8f8da82" (some "") none).store ∧
    (get_job (on_callback storeA "INT|3a55e8f8da82" (some "") none).store jidA).map
      Job.status = some "pending_send" ∧
    (get_job (on_callback storeA "INT|3a55e8f8da82" (some "") none).store jidA).map
      Job.proposal = some "" :=
  ⟨Reachable.callback "INT|3a55e8f8da82" (some "") none
      (Reachable.ingest true id 0 rawA Reachable.empty),
   by decide, by decide⟩

/-- **C3** (amended): on an interest action for a job with no proposal,
the handler first sets `generating`. If the draft collaborator *raises*,
the job is left stranded at `generating` and the exception escapes the
handler (no revert, no operator-channel failure message). If it returns
empty text, the job moves to `pending_send` with an empty proposal — a
retryable non-terminal state (a fresh interest regenerates; an approve
surfaces the "generate first" prompt). -/
theorem interest_failure_not_reverted {s : Store} {data i : String} {job : Job}
    (hd : py_split1 '|' data = some ("INT", i))
    (hg : get_job s i = some job)
    (hp : pyStrip job.proposal = "")
    (t : String) (ht : pyStrip t = "") (send : Option Bool) :
    ((on_callback s data none send).outcome = Outcome.raised ∧
     (on_callback s data none send).store = set_status s i "generating" ∧
     (get_job (on_callback s data none send).store i).map Job.status =
       some "generating") ∧
    ((get_job (on_callback s data (some t) send).store i).map Job.status =
       some "pending_send" ∧
     (get_job (on_callback s data (some t) send).store i).map Job.proposal =
       some "") := by
  have hcb0 : on_callback s data none send =
      ⟨set_status s i "generating",
       [.reply "🧠 Generando propuesta...",
        .genCall job.title job.description job.budget job.date job.url],
       .raised⟩ := by
    simp [on_callback, hd, hg, hp]
  have hcb1 : (on_callback s data (some t) send).store =
      set_proposal (set_status s i "generating") i (pyStrip t) "pending_send" := by
    simp [on_callback, hd, hg, hp]
  refine ⟨⟨by rw [hcb0], by rw [hcb0], ?_⟩, ?_, ?_⟩
  · rw [hcb0]
    show (get_job (set_status s i "generating") i).map Job.status = some "generating"
    rw [get_job_set_status, hg]
    rfl
  · rw [hcb1, set_proposal_set_status, get_job_set_proposal, hg]
    rfl
  · rw [hcb1, set_proposal_set_status, get_job_set_proposal, hg, ht]
    rfl

/-- Closed witness for the (amended) C3 theorem on the freshly ingested
store, with a whitespace-only generator return standing for "no text". -/
theorem interest_failure_not_reverted_witness :
    (((on_callback storeA "INT|3a55e8f8da82" none none).outcome = Outcome.raised ∧
      (on_callback storeA "INT|3a55e8f8da82" none none).store =
        set_status storeA jidA "generating" ∧
      (get_job (on_callback storeA "INT|3a55e8f8da82" none none).store jidA).map
        Job.status = some "generating") ∧
     ((get_job (on_callback storeA "INT|3a55e8f8da82" (some " ") none).store jidA).map
        Job.status = some "pending_send" ∧
      (get_job (on_callback storeA "INT|3a55e8f8da82" (some " ") none).store jidA).map
        Job.proposal = some "")) :=
  @interest_failure_not_reverted storeA "INT|3a55e8f8da82" jidA jrecA
    (by decide) (by decide) (by decide) " " (by decide) none

/-- **C3** counterexample: the draft collaborator raising leaves the job at
`generating` (with the exception escaping), where the claim demands a
retryable non-terminal state that is never `generating`. -/
theorem generating_stranded_cex :
    (on_callback storeA "INT|3a55e8f8da82" none none).outcome = Outcome.raised ∧
    (get_job (on_callback storeA "INT|3a55e8f8da82" none none).store jidA).map
      Job.status = some "generating" := by
  decide

/-- **C4** (amended): an approve action on a job with a non-empty proposal
invokes the submission collaborator exactly once, with no automatic
retry. If the collaborator *returns* falsy the status becomes `error`; if
it returns truthy, `sent`; but if it *raises*, the store is untouched —
the status stays `pending_send` rather than becoming `error`, and the
exception escapes the handler. A second submission happens only on a
fresh operator approve action. -/
theorem approve_submission_outcomes {s : Store} {data i : String} {job : Job}
    (hd : py_split1 '|' data = some ("OK", i))
    (hg : get_job s i = some job)
    (hst : job.status = "pending_send")
    (hp : pyStrip job.proposal ≠ "")
    (gen : Option String) (send : Option Bool) :
    List.countP isSendCall (on_callback s data gen send).events = 1 ∧
    (on_callback s data gen (some false)).store = set_status s i "error" ∧
    (get_job (on_callback s data gen (some false)).store i).map Job.status =
      some "error" ∧
    (on_callback s data gen (some true)).store = set_status s i "sent" ∧
    (on_callback s data gen none).store = s ∧
    (on_callback s data gen none).outcome = Outcome.raised ∧
    (get_job (on_callback s data gen none).store i).map Job.status =
      some "pending_send" := by
  have herr : (on_callback s data gen (some false)).store = set_status s i "error" := by
    simp [on_callback, hd, hg, hp]
  refine ⟨?_, herr, ?_, ?_, ?_, ?_, ?_⟩
  · cases send with
    | none =>
      simp [on_callback, hd, hg, hp, isSendCall, List.countP_cons, List.countP_append]
    | some b =>
      cases b <;>
        simp [on_callback, hd, hg, hp, isSendCall, List.countP_cons, List.countP_append]
  · rw [herr, get_job_set_status, hg]
    rfl
  · simp [on_callback, hd, hg, hp]
  · simp [on_callback, hd, hg, hp]
  · simp [on_callback, hd, hg, hp]
  · have : (on_callback s data gen none).store = s := by
      simp [on_callback, hd, hg, hp]
    rw [this, hg]
    show some job.status = some "pending_send"
    rw [hst]

/-- Closed witness for the (amended) C4 theorem on the drafted store. -/
theorem approve_submission_outcomes_witness :
    List.countP isSendCall
      (on_callback storeB "OK|3a55e8f8da82" none (some false)).events = 1 ∧
    (on_callback storeB "OK|3a55e8f8da82" none (some false)).store =
      set_status storeB jidA "error" ∧
    (get_job (on_callback storeB "OK|3a55e8f8da82" none (some false)).store jidA).map
      Job.status = some "error" ∧
    (on_callback storeB "OK|3a55e8f8da82" none (some true)).store =
      set_status storeB jidA "sent" ∧
    (on_callback storeB "OK|3a55e8f8da82" none none).store = storeB ∧
    (on_callback storeB "OK|3a55e8f8da82" none none).outcome = Outcome.raised ∧
    (get_job (on_callback storeB "OK|3a55e8f8da82" none none).store jidA).map
      Job.status = some "pending_send" :=
  @approve_submission_outcomes storeB "OK|3a55e8f8da82" jidA jrecB
    (by decide) (by decide) (by decide) (by decide) none (some false)

/-- **C4** counterexample: the submission collaborator raising (its only
real failure mode — `send_proposal_to_workana` has no falsy return) leaves
the status at `pending_send`, where the claim demands `error` on *every*
failure. The collaborator was invoked (one `sendCall`), the handler let
the exception escape, and the store is unchanged. -/
theorem approve_raise_not_error_cex :
    (on_callback storeB "OK|3a55e8f8da82" none none).outcome = Outcome.raised ∧
    List.countP isSendCall (on_callback storeB "OK|3a55e8f8da82" none none).events = 1 ∧
    (on_callback storeB "OK|3a55e8f8da82" none none).store = storeB ∧
    (get_job (on_callback storeB "OK|3a55e8f8da82" none none).store jidA).map
      Job.status = some "pending_send" := by
  decide

/-- **C7**: an interest action on a reachable job with a non-empty stored
proposal does not invoke the draft collaborator again (no `genCall` event):
it only re-renders the existing proposal (a single `editText` of the
existing record) and leaves the store — status and proposal included —
unchanged. -/
theorem interest_cached_no_regen {s : Store} {data i : String} {job : Job}
    (hs : Reachable s)
    (hd : py_split1 '|' data = some ("INT", i))
    (hg : get_job s i = some job)
    (hp : job.proposal ≠ "")
    (gen : Option String) (send : Option Bool) :
    (on_callback s data gen send).store = s ∧
    (on_callback s data gen send).events =
      [Event.editText (build_message_with_proposal job) (keyboard_send i)] ∧
    List.countP isGenCall (on_callback s data gen send).events = 0 := by
  have hjmem := (get_job_eq_some hg).1
  have hstrip := ((reachable_wf hs).2 job hjmem).1
  have hps : pyStrip job.proposal ≠ "" := by
    rw [← hstrip]
    exact hp
  refine ⟨?_, ?_, ?_⟩ <;>
    simp [on_callback, hd, hg, hps, isGenCall]

/-- Closed witness for the C7 theorem on the drafted store. -/
theorem interest_cached_no_regen_witness :
    (on_callback storeB "INT|3a55e8f8da82" (some "other") (some true)).store = storeB ∧
    (on_callback storeB "INT|3a55e8f8da82" (some "other") (some true)).events =
      [Event.editText (build_message_with_proposal jrecB) (keyboard_send jidA)] ∧
    List.countP isGenCall
      (on_callback storeB "INT|3a55e8f8da82" (some "other") (some true)).events = 0 :=
  interest_cached_no_regen
    (Reachable.callback "INT|3a55e8f8da82" (some "draft") none
      (Reachable.ingest true id 0 rawA Reachable.empty))
    (by decide) (by decide) (by decide) (some "other") (some true)

/-- **C10** (amended): the persisted url of an accepted raw job is the
*whitespace-stripped* raw url truncated at its first `'?'` — not the raw
url itself, which may carry surrounding whitespace — and hence the stored
url never contains a query string (no `'?'` occurs in it). -/
theorem stored_url_query_free (enabled : Bool) (sh : String → String) (now : Nat)
    (s : Store) (raw : RawJob)
    (h1 : ¬ (pyStrip raw.url = "" ∨ ¬ py_startswith (pyStrip raw.url) "http")) :
    (get_job (handle_new_job enabled sh now s raw).1
        (derive_id (pyStrip raw.url))).map Job.url =
      some (split_query (pyStrip raw.url)) ∧
    '?' ∉ (split_query (pyStrip raw.url)).data := by
  constructor
  · simp only [handle_new_job, if_neg h1]
    cases enabled <;> simp [get_job_upsert, derive_id]
  · intro hc
    have hc2 : ('?' : Char) ∈ (pyStrip raw.url).data.takeWhile
        (fun c => decide (c ≠ '?')) := hc
    have := List.mem_takeWhile_imp hc2
    simp at this

/-- Closed witness for the (amended) C10 theorem. -/
theorem stored_url_query_free_witness :
    (get_job (handle_new_job true id 0 [] rawC).1
        (derive_id (pyStrip rawC.url))).map Job.url =
      some (split_query (pyStrip rawC.url)) ∧
    '?' ∉ (split_query (pyStrip rawC.url)).data :=
  stored_url_query_free true id 0 [] rawC (by decide)

/-- **C10** counterexample: for the accepted raw url `"http://a "` (trailing
blank, no query string) the persisted url is `"http://a"`, while the raw
url truncated at its first `'?'` is `"http://a "` — the stored field is not
the truncation of the raw url. -/
theorem stored_url_not_raw_truncation_cex :
    (handle_new_job true id 0 [] rawC).1.map Job.url = ["http://a"] ∧
    split_query rawC.url = "http://a " ∧
    ("http://a" : String) ≠ "http://a " := by
  decide

end Huntly

